import Mathlib

set_option allowUnsafeReducibility true

attribute [semireducible] Rat.add Rat.mul Rat.inv Rat.sub Rat.div Rat.blt Rat.ofScientific

/-!
Shallow embedding of `src/server.js` of muni-corn/tictactoe-node: the
authoritative game-session state (the 9-cell board and the two player
sockets), the connection handler, and the four per-socket handlers
installed by `setupSocket` (`turn_taken`, `disconnect`, `resign`,
`turn_error`).

Modelling conventions:
  * A JavaScript number is a rational or NaN: `Option ℚ` with `none` for
    NaN (only exact small values arise, so `ℚ` loses nothing).
  * The two sockets are tracked by connection flags; emitted socket events
    are collected in an explicit `List Event`, in emission order.
  * The side effects of `determineWinnerFromSum` / `checkForGameOver`
    (announcing and cleaning up) are surfaced at the call site in
    `handleTurnTaken`, preserving the source's event order and state
    effect; the detection itself is the pure `checkForGameOver` below.
  * `setupSocket` registers listeners on a socket; the model counts how
    many times it has been run on each player socket (`firstSetup`,
    `secondSetup`), since the connection handler can run it repeatedly.
-/

namespace TTT

/-- A board cell of `server.js`: `'x'`, `'o'`, or the empty cell `'.'`. -/
inductive Symbol
  | x
  | o
  | dot
deriving DecidableEq, Fintype

/-- The two player slots: first (socket `firstPlayerSocket`, mark `'x'`)
and second (socket `secondPlayerSocket`, mark `'o'`). -/
inductive Player
  | first
  | second
deriving DecidableEq, Fintype

/-- The mark a slot places: `setupSocket(firstPlayerSocket, 'x')`,
`setupSocket(secondPlayerSocket, 'o')` (server.js lines 224-225). -/
def markOf : Player → Symbol
  | .first => .x
  | .second => .o

/-- The opposite slot. -/
def otherPlayer : Player → Player
  | .first => .second
  | .second => .first

/-- `'first'` / `'second'` as the strings interpolated into messages. -/
def ordinalStr : Player → String
  | .first => "first"
  | .second => "second"

/-- The board: `let board = ['.', ..., '.']` (server.js line 22). -/
abbrev Board := List Symbol

/-- The freshly initialized board of 9 empty cells (lines 22 and 47). -/
def initialBoard : Board :=
  [.dot, .dot, .dot, .dot, .dot, .dot, .dot, .dot, .dot]

/-- `board[i]` for a natural index (in-range reads in the source). -/
def cell (b : Board) (i : ℕ) : Symbol := b.getD i Symbol.dot

/-! ### JavaScript number model -/

/-- Is `c` whitespace for the purposes of `Number(string)` coercion. -/
def jsWhitespace (c : Char) : Bool :=
  c = ' ' ∨ c = '\t' ∨ c = '\n' ∨ c = '\r'

/-- Numeric value of a digit string (callers check the digits). -/
def digitsVal (cs : List Char) : ℕ :=
  cs.foldl (fun n c => 10 * n + (c.toNat - 48)) 0

/-- Exponent digits after `e`/`E`: all must be digits and nonempty. -/
def parseExpDigits (cs : List Char) : Option ℤ :=
  if cs ≠ [] ∧ cs.all Char.isDigit then some (digitsVal cs) else none

/-- Optionally signed exponent. -/
def parseExp : List Char → Option ℤ
  | '+' :: r => parseExpDigits r
  | '-' :: r => (parseExpDigits r).map Neg.neg
  | cs => parseExpDigits cs

/-- An unsigned JavaScript decimal literal: digits, an optional fraction
and an optional exponent (`"1."`, `".5"`, `"1e2"` are all numbers;
`"."`, `"e5"`, `"abc"` are NaN). -/
def parseUnsigned (cs : List Char) : Option ℚ :=
  let ds := cs.takeWhile Char.isDigit
  let rest := cs.dropWhile Char.isDigit
  let ipart : ℚ := (digitsVal ds : ℕ)
  match rest with
  | [] => if ds.isEmpty then none else some ipart
  | '.' :: r =>
    let fs := r.takeWhile Char.isDigit
    let rest2 := r.dropWhile Char.isDigit
    if ds.isEmpty && fs.isEmpty then none
    else
      let base : ℚ := ipart + (digitsVal fs : ℚ) / ((10 : ℚ) ^ fs.length)
      match rest2 with
      | [] => some base
      | c :: r2 =>
        if (c = 'e' ∨ c = 'E') then (parseExp r2).map (fun k => base * (10 : ℚ) ^ k)
        else none
  | c :: r2 =>
    if (c = 'e' ∨ c = 'E') ∧ ¬ds.isEmpty then
      (parseExp r2).map (fun k => ipart * (10 : ℚ) ^ k)
    else none

/-- `Number(s)` for a string, as the source's `Number(position)` uses it:
trimmed whitespace, the empty string is `0`, an optionally signed decimal
literal otherwise, NaN (`none`) on anything else. (The hexadecimal,
binary, octal and `Infinity` forms of the coercion never name a board
position and are folded into NaN here.) -/
def jsNumber (s : String) : Option ℚ :=
  let cs := ((s.data.dropWhile jsWhitespace).reverse.dropWhile jsWhitespace).reverse
  match cs with
  | [] => some 0
  | '+' :: r => parseUnsigned r
  | '-' :: r => (parseUnsigned r).map Neg.neg
  | _ => parseUnsigned cs

/-- `board[q]` for an arbitrary JavaScript number `q`: an in-range
integer index reads the cell, anything else reads `undefined` (`none`). -/
def jsIndex (b : Board) (q : ℚ) : Option Symbol :=
  if q.den = 1 ∧ 0 ≤ q.num ∧ q.num.toNat < b.length then
    some (cell b q.num.toNat)
  else none

/-- The guard `board[position] != '.'` (server.js line 170): `undefined`
compares unequal to `'.'`, so a fractional or out-of-range index counts
as taken. -/
def jsCellTaken (b : Board) (q : ℚ) : Bool :=
  match jsIndex b q with
  | some s => decide (s ≠ Symbol.dot)
  | none => true

/-- `board[q] = s` (server.js line 176): a non-negative integer index
writes the cell; any other number would set a non-index property and
leave the 9 cells unchanged. -/
def boardSet (b : Board) (q : ℚ) (s : Symbol) : Board :=
  if q.den = 1 ∧ 0 ≤ q.num then b.set q.num.toNat s else b

/-! ### Win and tie detection -/

/-- `symbolToScore` (server.js lines 95-98): `'x'` is 1, `'o'` is -1, and
the function falls through on `'.'`, returning `undefined` (`none`) —
although the comment above `determineWinnerFromSum` says `'.'` is 0. -/
def symbolToScore : Symbol → Option ℤ
  | .x => some 1
  | .o => some (-1)
  | .dot => none

/-- JavaScript `+` on possibly-undefined scores: `undefined` or NaN on
either side poisons the sum to NaN. -/
def jsAdd : Option ℤ → Option ℤ → Option ℤ
  | some a, some b => some (a + b)
  | _, _ => none

/-- The pure decision inside `determineWinnerFromSum` (server.js lines
82-92): sum 3 names the first player, sum -3 the second, anything else
(NaN included) no winner. The announcement it performs is surfaced in
`handleTurnTaken`. -/
def determineWinnerFromSum (sum : Option ℤ) : Option Player :=
  if sum = some 3 then some Player.first
  else if sum = some (-3) then some Player.second
  else none

/-- A row or column sum of `checkForGameOver` (lines 103-122): `let sum =
0` then three `sum += symbolToScore(board[...])` steps, at indices
`i`, `j`, `k`. -/
def lineScoreAcc (b : Board) (i j k : ℕ) : Option ℤ :=
  jsAdd (jsAdd (jsAdd (some 0) (symbolToScore (cell b i)))
      (symbolToScore (cell b j)))
    (symbolToScore (cell b k))

/-- A diagonal sum of `checkForGameOver` (lines 125-127): the three
scores added directly, without the 0 accumulator. -/
def diagScore (b : Board) (i j k : ℕ) : Option ℤ :=
  jsAdd (jsAdd (symbolToScore (cell b i)) (symbolToScore (cell b j)))
    (symbolToScore (cell b k))

/-- A finished game: a win for a slot or a tie. -/
inductive Outcome
  | won (p : Player)
  | tie
deriving DecidableEq

/-- `checkForGameOver` (server.js lines 101-141) as a pure decision:
rows 0-2, then columns 0-2, then the two diagonals, each sum passed to
`determineWinnerFromSum`; if none fires and some cell is `'.'` the game
goes on, otherwise it is a tie. The announcement side effects are
surfaced at the call site in `handleTurnTaken`. -/
def checkForGameOver (b : Board) : Option Outcome :=
  match determineWinnerFromSum (lineScoreAcc b 0 1 2) with
  | some p => some (Outcome.won p)
  | none =>
    match determineWinnerFromSum (lineScoreAcc b 3 4 5) with
    | some p => some (Outcome.won p)
    | none =>
      match determineWinnerFromSum (lineScoreAcc b 6 7 8) with
      | some p => some (Outcome.won p)
      | none =>
        match determineWinnerFromSum (lineScoreAcc b 0 3 6) with
        | some p => some (Outcome.won p)
        | none =>
          match determineWinnerFromSum (lineScoreAcc b 1 4 7) with
          | some p => some (Outcome.won p)
          | none =>
            match determineWinnerFromSum (lineScoreAcc b 2 5 8) with
            | some p => some (Outcome.won p)
            | none =>
              match determineWinnerFromSum (diagScore b 0 4 8) with
              | some p => some (Outcome.won p)
              | none =>
                match determineWinnerFromSum (diagScore b 2 4 6) with
                | some p => some (Outcome.won p)
                | none =>
                  if b.any (fun s => s = Symbol.dot) then none
                  else some Outcome.tie

/-! ### Server state and socket events -/

/-- Who a server emission is addressed to: one of the two player sockets,
or the socket whose connection attempt is being handled. -/
inductive Target
  | player (p : Player)
  | connecting
deriving DecidableEq

/-- One `socket.emit(...)` of server.js, with its addressee. `ack`
records the `next()` acknowledgement callback the `turn_taken` handler
always invokes last. -/
inductive Event
  | reject (t : Target) (msg : String)
  | gameStart (t : Target) (ordinal : String)
  | turn (t : Target) (msg : Option String)
  | boardUpdate (t : Target) (b : Board)
  | gameOver (t : Target) (msg : String)
  | ack (p : Player)
deriving DecidableEq

/-- The server's module state: whether `firstPlayerSocket` /
`secondPlayerSocket` are non-null, the board, and how many times
`setupSocket` has been run on each socket (each run registers a fresh
set of `disconnect` / `resign` / `turn_taken` / `turn_error` listeners). -/
structure ServerState where
  firstConnected : Bool
  secondConnected : Bool
  board : Board
  firstSetup : ℕ
  secondSetup : ℕ
deriving DecidableEq

/-- The state at process start (server.js lines 18-22), and again after
`cleanUp`: no sockets, no listeners, an empty board. -/
def initState : ServerState :=
  { firstConnected := false
    secondConnected := false
    board := initialBoard
    firstSetup := 0
    secondSetup := 0 }

/-- `emitToAll` (server.js lines 25-31): emit to each player socket that
is currently non-null, first player first. -/
def emitToAll (st : ServerState) (f : Player → Event) : List Event :=
  (if st.firstConnected then [f Player.first] else []) ++
    (if st.secondConnected then [f Player.second] else [])

/-- Retry prompt of the unparseable branch (server.js line 166). -/
def parseRetryMsg : String := "couldn't parse position. enter a number from 1-9."

/-- Retry prompt of the out-of-bounds branch (server.js line 169). -/
def oobRetryMsg : String := "that position is out of bounds. enter a number from 1-9."

/-- Retry prompt of the occupied-cell branch (server.js line 173). -/
def occupiedRetryMsg : String := "that position is occupied. try again."

/-- Rejection sent to a third connecting socket (server.js line 218). -/
def rejectConnectMsg : String :=
  "you can't connect now! there are already two players connected."

/-- `game_over` payload of `announceWinner` (server.js line 52). -/
def wonMsg (who : Player) : String := "won by " ++ ordinalStr who ++ " player"

/-- `game_over` payload of `announceWinnerByDisconnection` (line 59). -/
def disconnectionMsg (winner : Player) : String :=
  "won by " ++ ordinalStr winner ++ " player since " ++
    ordinalStr (otherPlayer winner) ++ " player disconnected"

/-- `game_over` payload of `announceWinnerByResignation` (line 65). -/
def resignationMsg (winner : Player) : String :=
  "won by " ++ ordinalStr winner ++ " player due to resignation"

/-- `game_over` payload of `announceTie` (server.js line 71). -/
def tieMsg : String := "is tied"

/-- The `game_over` text `checkForGameOver` announces for an outcome:
`announceWinner` for a win, `announceTie` for a tie. -/
def outcomeMsg : Outcome → String
  | .won w => wonMsg w
  | .tie => tieMsg

/-! ### Handlers -/

/-- The `disconnect` listener of `setupSocket` (server.js lines 151-153)
for the socket holding `markOf p`: `announceWinnerByDisconnection` of
`otherPlayerOrdinal` — emit `game_over` to every connected socket, then
`cleanUp` (disconnect and null both sockets, reset the board). -/
def handleDisconnect (st : ServerState) (p : Player) : ServerState × List Event :=
  let winner := if markOf p = Symbol.x then Player.second else Player.first
  (initState,
    emitToAll st (fun q => Event.gameOver (Target.player q) (disconnectionMsg winner)))

/-- The `resign` listener of `setupSocket` (server.js lines 156-158):
`announceWinnerByResignation` of the other player, then `cleanUp`. -/
def handleResign (st : ServerState) (p : Player) : ServerState × List Event :=
  let winner := if markOf p = Symbol.x then Player.second else Player.first
  (initState,
    emitToAll st (fun q => Event.gameOver (Target.player q) (resignationMsg winner)))

/-- The `turn_error` listener of `setupSocket` (server.js lines 199-203):
input-channel failure is treated as a disconnection of that player. -/
def handleTurnError (st : ServerState) (p : Player) : ServerState × List Event :=
  let winner := if markOf p = Symbol.x then Player.second else Player.first
  (initState,
    emitToAll st (fun q => Event.gameOver (Target.player q) (disconnectionMsg winner)))

/-- The `turn_taken` listener of `setupSocket` (server.js lines 161-194)
for the player `p` (whose socket holds `markOf p`):
`position = Number(position) - 1`; reject unparseable, out-of-bounds
(`position < 0 || position >= board.length`) and occupied
(`board[position] != '.'`) input back to the sender's socket only;
otherwise write the mark, broadcast `board_update`, and run
`checkForGameOver` — which on a win or tie emits `game_over` to both and
cleans up — else grant the turn to the other player's socket. The final
`next()` acknowledgement is the trailing `ack`. -/
def handleTurnTaken (st : ServerState) (p : Player) (raw : String) :
    ServerState × List Event :=
  let symbol := markOf p
  match (jsNumber raw).map (fun v => v - 1) with
  | none =>
    (st, [Event.turn (Target.player p) (some parseRetryMsg), Event.ack p])
  | some position =>
    if position < 0 ∨ (st.board.length : ℚ) ≤ position then
      (st, [Event.turn (Target.player p) (some oobRetryMsg), Event.ack p])
    else if jsCellTaken st.board position then
      (st, [Event.turn (Target.player p) (some occupiedRetryMsg), Event.ack p])
    else
      let b := boardSet st.board position symbol
      let st1 := { st with board := b }
      let updates := emitToAll st1 (fun q => Event.boardUpdate (Target.player q) b)
      match checkForGameOver b with
      | some outcome =>
        (initState,
          updates ++
            emitToAll st1 (fun q => Event.gameOver (Target.player q) (outcomeMsg outcome)) ++
            [Event.ack p])
      | none =>
        (st1,
          updates ++
            [Event.turn
              (Target.player (if symbol = Symbol.x then Player.second else Player.first))
              none,
            Event.ack p])

/-- The `io.on('connection')` handler (server.js lines 208-234): fill the
first null player socket, or emit `reject` to the extra socket; then —
whenever both sockets are non-null, with no started-already guard — run
`setupSocket` on both sockets (counted in `firstSetup` / `secondSetup`),
emit `game_start` to both and grant the opening turn to the first
player. -/
def handleConnection (st : ServerState) : ServerState × List Event :=
  let step1 : ServerState × List Event :=
    if st.firstConnected = false then
      ({ st with firstConnected := true }, [])
    else if st.secondConnected = false then
      ({ st with secondConnected := true }, [])
    else
      (st, [Event.reject Target.connecting rejectConnectMsg])
  let st1 := step1.1
  if st1.firstConnected && st1.secondConnected then
    ({ st1 with firstSetup := st1.firstSetup + 1, secondSetup := st1.secondSetup + 1 },
      step1.2 ++
        [Event.gameStart (Target.player Player.first) "first",
         Event.gameStart (Target.player Player.second) "second",
         Event.turn (Target.player Player.first) none])
  else (st1, step1.2)

/-- An inbound event the server reacts to, dispatched to the listeners
above. -/
inductive Op
  | connect
  | turnTaken (p : Player) (raw : String)
  | disconnect (p : Player)
  | resign (p : Player)
  | turnError (p : Player)

/-- One server reaction: the next state and the emissions, in order. -/
def step (st : ServerState) : Op → ServerState × List Event
  | .connect => handleConnection st
  | .turnTaken p raw => handleTurnTaken st p raw
  | .disconnect p => handleDisconnect st p
  | .resign p => handleResign st p
  | .turnError p => handleTurnError st p

/-! ### Spec-side notions

These definitions transcribe the specification's words (not the code):
the 8 lines in the spec's checking order, what it means for a line to be
fully one player's mark, which player the first fully-occupied line
belongs to, and the mark-scores the spec describes. -/

/-- The 3 rows, 3 columns and 2 diagonals, in the spec's checking order
(rows, then columns, then the two diagonals). -/
def linesInOrder : List (ℕ × ℕ × ℕ) :=
  [(0, 1, 2), (3, 4, 5), (6, 7, 8), (0, 3, 6), (1, 4, 7), (2, 5, 8), (0, 4, 8), (2, 4, 6)]

/-- Spec-side: the owner of a line fully occupied by one player's mark
(the first player owns `x`, the second `o`), if any. -/
def lineWinner3 (s1 s2 s3 : Symbol) : Option Player :=
  if s1 = Symbol.x ∧ s2 = Symbol.x ∧ s3 = Symbol.x then some Player.first
  else if s1 = Symbol.o ∧ s2 = Symbol.o ∧ s3 = Symbol.o then some Player.second
  else none

/-- `lineWinner3` read off the board at a line's three indices. -/
def lineWinner (b : Board) (l : ℕ × ℕ × ℕ) : Option Player :=
  lineWinner3 (cell b l.1) (cell b l.2.1) (cell b l.2.2)

/-- Spec-side: the owner of the first fully-occupied line in the spec's
checking order, if any line is fully one player's mark. -/
def firstFullLineWinner (b : Board) : Option Player :=
  linesInOrder.findSome? (lineWinner b)

/-- The line `l` is fully occupied by `p`'s mark. -/
def lineFullOf (b : Board) (l : ℕ × ℕ × ℕ) (p : Player) : Prop :=
  cell b l.1 = markOf p ∧ cell b l.2.1 = markOf p ∧ cell b l.2.2 = markOf p

/-- Whether a line is fully one player's mark is checkable. -/
instance lineFullOfDecidable (b : Board) (l : ℕ × ℕ × ℕ) (p : Player) :
    Decidable (lineFullOf b l p) :=
  inferInstanceAs (Decidable (_ ∧ _ ∧ _))

/-- The mark-score the spec (and the comment above
`determineWinnerFromSum`, server.js lines 79-81) describes: the first
player's mark is +1, the second player's is -1, an empty cell is 0. -/
def specSymbolScore : Symbol → ℤ
  | .x => 1
  | .o => -1
  | .dot => 0

/-- Whether a string names an accepted move on board `b`: it coerces to
a number, lands in bounds after the decrement, and hits an empty cell
(the three guards of the `turn_taken` handler, in order). -/
def acceptsMove (b : Board) (raw : String) : Bool :=
  match (jsNumber raw).map (fun v => v - 1) with
  | none => false
  | some position =>
    !(decide (position < 0) || decide ((b.length : ℚ) ≤ position)) && !(jsCellTaken b position)

/-- Whether an emission is a `turn` grant carrying a retry explanation —
the shape every move rejection takes. -/
def isRetryPrompt : Event → Bool
  | .turn _ (some _) => true
  | _ => false

/-- Spec-side: the winner a `game_over` text declares, read off its
`won by <ordinal> player` opening. -/
def announcedWinner (m : String) : Option Player :=
  if ("won by first player".data).isPrefixOf m.data then some Player.first
  else if ("won by second player".data).isPrefixOf m.data then some Player.second
  else none

/-! ### Detection lemmas -/

/-- A row/column sum decides exactly the full-line owner: with scores in
{1, -1, undefined}, the accumulated sum is 3 iff all three cells are `x`
and -3 iff all three are `o` (a line containing `'.'` sums to NaN). -/
lemma det_lineScoreAcc (b : Board) (i j k : ℕ) :
    determineWinnerFromSum (lineScoreAcc b i j k) =
      lineWinner3 (cell b i) (cell b j) (cell b k) := by
  have h : ∀ s1 s2 s3 : Symbol,
      determineWinnerFromSum
          (jsAdd (jsAdd (jsAdd (some 0) (symbolToScore s1)) (symbolToScore s2))
            (symbolToScore s3)) =
        lineWinner3 s1 s2 s3 := by decide
  exact h _ _ _

/-- The diagonal sums decide the same way as the accumulated sums. -/
lemma det_diagScore (b : Board) (i j k : ℕ) :
    determineWinnerFromSum (diagScore b i j k) =
      lineWinner3 (cell b i) (cell b j) (cell b k) := by
  have h : ∀ s1 s2 s3 : Symbol,
      determineWinnerFromSum
          (jsAdd (jsAdd (symbolToScore s1) (symbolToScore s2)) (symbolToScore s3)) =
        lineWinner3 s1 s2 s3 := by decide
  exact h _ _ _

/-- `checkForGameOver` in spec terms: the first fully-occupied line's
owner wins; with no such line the game goes on while a cell is empty and
is a tie otherwise. -/
lemma checkForGameOver_eq (b : Board) :
    checkForGameOver b =
      match firstFullLineWinner b with
      | some p => some (Outcome.won p)
      | none => if b.any (fun s => s = Symbol.dot) then none else some Outcome.tie := by
  unfold checkForGameOver firstFullLineWinner linesInOrder
  rw [det_lineScoreAcc, det_lineScoreAcc, det_lineScoreAcc, det_lineScoreAcc,
    det_lineScoreAcc, det_lineScoreAcc, det_diagScore, det_diagScore]
  simp only [List.findSome?_cons, List.findSome?_nil, lineWinner]
  generalize lineWinner3 (cell b 0) (cell b 1) (cell b 2) = w1
  generalize lineWinner3 (cell b 3) (cell b 4) (cell b 5) = w2
  generalize lineWinner3 (cell b 6) (cell b 7) (cell b 8) = w3
  generalize lineWinner3 (cell b 0) (cell b 3) (cell b 6) = w4
  generalize lineWinner3 (cell b 1) (cell b 4) (cell b 7) = w5
  generalize lineWinner3 (cell b 2) (cell b 5) (cell b 8) = w6
  generalize lineWinner3 (cell b 0) (cell b 4) (cell b 8) = w7
  generalize lineWinner3 (cell b 2) (cell b 4) (cell b 6) = w8
  generalize (b.any fun s => s = Symbol.dot) = t
  revert w1 w2 w3 w4 w5 w6 w7 w8 t
  decide

/-- A line winner names exactly a fully-occupied line. -/
lemma lineWinner3_eq_some (s1 s2 s3 : Symbol) (p : Player) :
    lineWinner3 s1 s2 s3 = some p ↔ s1 = markOf p ∧ s2 = markOf p ∧ s3 = markOf p := by
  revert s1 s2 s3 p
  decide

/-- `lineWinner` in terms of `lineFullOf`. -/
lemma lineWinner_eq_some (b : Board) (l : ℕ × ℕ × ℕ) (p : Player) :
    lineWinner b l = some p ↔ lineFullOf b l p := by
  unfold lineWinner lineFullOf
  exact lineWinner3_eq_some _ _ _ p

/-! ### Indexing and handler-evaluation lemmas -/

/-- Reading the board at a natural in-range index hits the cell. -/
lemma jsIndex_natCast (b : Board) (k : ℕ) (h : k < b.length) :
    jsIndex b (k : ℚ) = some (cell b k) := by
  unfold jsIndex
  rw [if_pos]
  · simp
  · refine ⟨Rat.den_natCast k, ?_, ?_⟩
    · simp [Rat.num_natCast]
    · simpa [Rat.num_natCast] using h

/-- Writing the board at a natural index is `List.set`. -/
lemma boardSet_natCast (b : Board) (k : ℕ) (s : Symbol) :
    boardSet b (k : ℚ) s = b.set k s := by
  unfold boardSet
  rw [if_pos]
  · simp
  · exact ⟨Rat.den_natCast k, by simp [Rat.num_natCast]⟩

/-- At a natural in-range index, the occupancy guard tests the cell. -/
lemma jsCellTaken_natCast (b : Board) (k : ℕ) (h : k < b.length) :
    jsCellTaken b (k : ℚ) = decide (cell b k ≠ Symbol.dot) := by
  unfold jsCellTaken
  rw [jsIndex_natCast b k h]

/-- A non-negative integer-valued rational is the cast of its numerator. -/
lemma ratNat_of_den_one (q : ℚ) (hden : q.den = 1) (hq : 0 ≤ q) :
    ((q.num.toNat : ℕ) : ℚ) = q := by
  have hnum : 0 ≤ q.num := Rat.num_nonneg.2 hq
  have h1 : (q.num : ℚ) = q := (Rat.den_eq_one_iff q).1 hden
  rw [← h1]
  exact_mod_cast congrArg (fun z : ℤ => ((z : ℚ))) (Int.toNat_of_nonneg hnum)

/-- Within bounds, the occupancy guard passes exactly at a genuine (that
is, integer) index whose cell is empty: a fractional in-range position
reads `undefined` and counts as taken. -/
lemma jsCellTaken_eq_false_iff (b : Board) (q : ℚ) (h0 : 0 ≤ q) (h1 : q < (b.length : ℚ)) :
    jsCellTaken b q = false ↔ ∃ k : ℕ, (k : ℚ) = q ∧ cell b k = Symbol.dot := by
  constructor
  · intro h
    unfold jsCellTaken jsIndex at h
    by_cases hc : q.den = 1 ∧ 0 ≤ q.num ∧ q.num.toNat < b.length
    · rw [if_pos hc] at h
      refine ⟨q.num.toNat, ratNat_of_den_one q hc.1 h0, ?_⟩
      simpa using h
    · rw [if_neg hc] at h
      exact absurd h (by simp)
  · rintro ⟨k, hkq, hcell⟩
    have hklt : k < b.length := by
      rw [← hkq] at h1
      exact_mod_cast h1
    rw [← hkq, jsCellTaken_natCast b k hklt, hcell]
    simp

/-- Writing a cell then reading it back. -/
lemma cell_set_self (b : Board) (k : ℕ) (s : Symbol) (h : k < b.length) :
    cell (b.set k s) k = s := by
  unfold cell
  rw [List.getD_eq_getElem?_getD, List.getElem?_set_self (by simpa using h)]
  rfl

/-- Writing a cell leaves the other cells as they were. -/
lemma cell_set_ne (b : Board) (k i : ℕ) (s : Symbol) (h : i ≠ k) :
    cell (b.set k s) i = cell b i := by
  unfold cell
  rw [List.getD_eq_getElem?_getD, List.getD_eq_getElem?_getD,
    List.getElem?_set_ne (Ne.symm h)]

/-- The connection handler never touches the board. -/
lemma handleConnection_board (st : ServerState) :
    (handleConnection st).1.board = st.board := by
  unfold handleConnection
  by_cases h1 : st.firstConnected = false <;> by_cases h2 : st.secondConnected = false <;>
    simp [h1, h2]

/-- `turn_taken` on unparseable input: prompt the sender to retry. -/
lemma handleTurnTaken_parse_reject (st : ServerState) (p : Player) (raw : String)
    (hv : jsNumber raw = none) :
    handleTurnTaken st p raw =
      (st, [Event.turn (Target.player p) (some parseRetryMsg), Event.ack p]) := by
  unfold handleTurnTaken
  rw [hv]
  rfl

/-- `turn_taken` on an out-of-bounds position: prompt the sender. -/
lemma handleTurnTaken_oob_reject (st : ServerState) (p : Player) (raw : String) (v : ℚ)
    (hv : jsNumber raw = some v) (h : v - 1 < 0 ∨ (st.board.length : ℚ) ≤ v - 1) :
    handleTurnTaken st p raw =
      (st, [Event.turn (Target.player p) (some oobRetryMsg), Event.ack p]) := by
  unfold handleTurnTaken
  rw [hv]
  simp only [Option.map_some']
  rw [if_pos h]

/-- `turn_taken` on a taken (or fractional) position: prompt the sender. -/
lemma handleTurnTaken_occupied_reject (st : ServerState) (p : Player) (raw : String) (v : ℚ)
    (hv : jsNumber raw = some v) (h0 : ¬(v - 1 < 0 ∨ (st.board.length : ℚ) ≤ v - 1))
    (h1 : jsCellTaken st.board (v - 1) = true) :
    handleTurnTaken st p raw =
      (st, [Event.turn (Target.player p) (some occupiedRetryMsg), Event.ack p]) := by
  unfold handleTurnTaken
  rw [hv]
  simp only [Option.map_some']
  rw [if_neg h0, if_pos h1]

/-- `turn_taken` on a valid move at cell `k`: write the mark, broadcast
the board, and continue by the outcome of `checkForGameOver`. -/
lemma handleTurnTaken_accept (st : ServerState) (p : Player) (raw : String) (v : ℚ) (k : ℕ)
    (hv : jsNumber raw = some v) (hk : (k : ℚ) = v - 1) (hlt : k < st.board.length)
    (hcell : cell st.board k = Symbol.dot) :
    handleTurnTaken st p raw =
      (let b := st.board.set k (markOf p)
       let st1 := { st with board := b }
       let updates := emitToAll st1 (fun q => Event.boardUpdate (Target.player q) b)
       match checkForGameOver b with
       | some outcome =>
         (initState,
           updates ++
             emitToAll st1 (fun q => Event.gameOver (Target.player q) (outcomeMsg outcome)) ++
             [Event.ack p])
       | none =>
         (st1,
           updates ++
             [Event.turn
               (Target.player (if markOf p = Symbol.x then Player.second else Player.first))
               none,
             Event.ack p])) := by
  unfold handleTurnTaken
  rw [hv]
  simp only [Option.map_some']
  rw [← hk]
  have h0 : ¬((k : ℚ) < 0 ∨ (st.board.length : ℚ) ≤ (k : ℚ)) := by
    push_neg
    constructor
    · exact Nat.cast_nonneg k
    · exact_mod_cast hlt
  rw [if_neg h0]
  have h1 : jsCellTaken st.board (k : ℚ) = false := by
    rw [jsCellTaken_natCast st.board k hlt, hcell]
    simp
  rw [if_neg (by simp [h1]), boardSet_natCast]

/-! ### Claims -/

/-- C1 (counterexample): after the two players connect, the opening turn
grant goes to the first player, so the second slot does not hold the
turn token; yet a `turn_taken` of `"1"` by the second player is not
rejected — no retry prompt at all is emitted — and it writes `o` into
cell 0 of the board, contradicting the claim that an out-of-turn
submission is rejected with reason "not your turn" and never mutates
the board. -/
theorem C1_counterexample :
    (step (step initState Op.connect).1 Op.connect).2 =
      [Event.gameStart (Target.player Player.first) "first",
       Event.gameStart (Target.player Player.second) "second",
       Event.turn (Target.player Player.first) none]
    ∧ (handleTurnTaken (step (step initState Op.connect).1 Op.connect).1
          Player.second "1").1.board = initialBoard.set 0 Symbol.o
    ∧ initialBoard.set 0 Symbol.o ≠ initialBoard
    ∧ ∀ e ∈ (handleTurnTaken (step (step initState Op.connect).1 Op.connect).1
          Player.second "1").2, isRetryPrompt e = false := by
  decide

/-- C1 (amended): the server applies no turn check to `turn_taken`. A
submission is validated and applied the same way whichever slot sends
it: every retry prompt it emits goes back to the sender and gives one of
the three move-validation reasons (none is a "not your turn" rejection),
and a submission naming an in-bounds empty cell writes the sender's mark
to the board — and broadcasts the written board — even when the sender
does not hold the turn token. -/
theorem C1_amended_no_turn_check (st : ServerState) (p : Player) (raw : String) :
    (∀ t m, Event.turn t (some m) ∈ (handleTurnTaken st p raw).2 →
      t = Target.player p ∧ (m = parseRetryMsg ∨ m = oobRetryMsg ∨ m = occupiedRetryMsg))
    ∧ (∀ v : ℚ, ∀ k : ℕ, jsNumber raw = some v → (k : ℚ) = v - 1 →
      k < st.board.length → cell st.board k = Symbol.dot → st.firstConnected = true →
      Event.boardUpdate (Target.player Player.first) (st.board.set k (markOf p)) ∈
        (handleTurnTaken st p raw).2) := by
  constructor
  · intro t m hm
    cases hv : jsNumber raw with
    | none =>
      rw [handleTurnTaken_parse_reject st p raw hv] at hm
      simp at hm
      exact ⟨hm.1, Or.inl hm.2⟩
    | some v =>
      by_cases hb : v - 1 < 0 ∨ (st.board.length : ℚ) ≤ v - 1
      · rw [handleTurnTaken_oob_reject st p raw v hv hb] at hm
        simp at hm
        exact ⟨hm.1, Or.inr (Or.inl hm.2)⟩
      · cases hc : jsCellTaken st.board (v - 1) with
        | true =>
          rw [handleTurnTaken_occupied_reject st p raw v hv hb hc] at hm
          simp at hm
          exact ⟨hm.1, Or.inr (Or.inr hm.2)⟩
        | false =>
          push_neg at hb
          obtain ⟨k, hk, hcell⟩ :=
            (jsCellTaken_eq_false_iff st.board (v - 1) hb.1 hb.2).1 hc
          have hlt : k < st.board.length := by
            have := hb.2
            rw [← hk] at this
            exact_mod_cast this
          rw [handleTurnTaken_accept st p raw v k hv hk hlt hcell] at hm
          cases hov : checkForGameOver (st.board.set k (markOf p)) <;>
            cases hf : st.firstConnected <;> cases hs : st.secondConnected <;>
              simp [emitToAll, hf, hs, hov] at hm
  · intro v k hv hk hlt hcell hfc
    rw [handleTurnTaken_accept st p raw v k hv hk hlt hcell]
    cases hov : checkForGameOver (st.board.set k (markOf p)) <;>
      simp [emitToAll, hov, hfc]

/-- C1 (witness): the second player, without the turn token, submits
`"1"` into a fresh game and the written board is broadcast. -/
theorem C1_amended_witness :
    Event.boardUpdate (Target.player Player.first) (initialBoard.set 0 (markOf Player.second)) ∈
      (handleTurnTaken ⟨true, true, initialBoard, 1, 1⟩ Player.second "1").2 :=
  (C1_amended_no_turn_check ⟨true, true, initialBoard, 1, 1⟩ Player.second "1").2 1 0
    (by decide) (by decide) (by decide) (by decide) rfl

/-- C2 (code evaluated at the failing input): a third endpoint connects
while both slots are filled. The claim says the attempt has no effect on
the in-progress game, but besides emitting the rejection the handler
falls into the both-sockets-connected block: it runs `setupSocket` on
both player sockets again (duplicating every listener) and re-emits
`game_start` to both players and a fresh opening turn grant to the
first player. The extra socket is also never disconnected server-side. -/
theorem C2_third_connection_restarts_game :
    handleConnection ⟨true, true, initialBoard, 1, 1⟩ =
      (⟨true, true, initialBoard, 2, 2⟩,
        [Event.reject Target.connecting rejectConnectMsg,
         Event.gameStart (Target.player Player.first) "first",
         Event.gameStart (Target.player Player.second) "second",
         Event.turn (Target.player Player.first) none]) := by
  decide

/-- C3 (code evaluated at the failing input): the claim (and the
source's own comment) says an empty cell scores 0, so a line `x x .`
would sum to 2; but `symbolToScore('.')` falls through and returns
`undefined`, making the row's accumulated sum NaN (`none`). -/
theorem C3_empty_cell_scores_undefined :
    symbolToScore Symbol.dot = none
    ∧ specSymbolScore Symbol.dot = 0
    ∧ lineScoreAcc [Symbol.x, Symbol.x, Symbol.dot] 0 1 2 = none
    ∧ specSymbolScore Symbol.x + specSymbolScore Symbol.x + specSymbolScore Symbol.dot = 2 := by
  decide

/-- C7 (counterexample): `"3.5"` does not parse as an integer, so the
claim requires the unparseable rejection; but `Number("3.5")` is 3.5,
the decremented position 2.5 passes the bounds check, `board[2.5]` is
`undefined`, and the move is rejected as occupied instead. -/
theorem C7_counterexample :
    jsNumber "3.5" = some (7 / 2)
    ∧ handleTurnTaken ⟨true, true, initialBoard, 1, 1⟩ Player.first "3.5" =
        (⟨true, true, initialBoard, 1, 1⟩,
          [Event.turn (Target.player Player.first) (some occupiedRetryMsg),
           Event.ack Player.first])
    ∧ occupiedRetryMsg ≠ parseRetryMsg := by
  decide

/-- C7 (amended): validation applies its checks in order on the JS
number coercion of the raw input — NaN is rejected as unparseable;
otherwise the coerced value is decremented and rejected as out of
bounds exactly when it leaves `[0, board.length)`; otherwise the move
is rejected as occupied exactly when the position is not an integer
index holding an empty cell (a fractional in-range position reads
`undefined` and is treated as occupied); otherwise the sender's mark is
written to that cell and the written board is broadcast. -/
theorem C7_amended_coercion_checks (st : ServerState) (p : Player) (raw : String) :
    (jsNumber raw = none →
      handleTurnTaken st p raw =
        (st, [Event.turn (Target.player p) (some parseRetryMsg), Event.ack p]))
    ∧ (∀ v : ℚ, jsNumber raw = some v → (v - 1 < 0 ∨ (st.board.length : ℚ) ≤ v - 1) →
      handleTurnTaken st p raw =
        (st, [Event.turn (Target.player p) (some oobRetryMsg), Event.ack p]))
    ∧ (∀ v : ℚ, jsNumber raw = some v → ¬(v - 1 < 0 ∨ (st.board.length : ℚ) ≤ v - 1) →
      ¬(∃ k : ℕ, (k : ℚ) = v - 1 ∧ cell st.board k = Symbol.dot) →
      handleTurnTaken st p raw =
        (st, [Event.turn (Target.player p) (some occupiedRetryMsg), Event.ack p]))
    ∧ (∀ v : ℚ, ∀ k : ℕ, jsNumber raw = some v → (k : ℚ) = v - 1 →
      ¬(v - 1 < 0 ∨ (st.board.length : ℚ) ≤ v - 1) → cell st.board k = Symbol.dot →
      st.firstConnected = true →
      Event.boardUpdate (Target.player Player.first) (st.board.set k (markOf p)) ∈
        (handleTurnTaken st p raw).2) := by
  refine ⟨fun hv => handleTurnTaken_parse_reject st p raw hv,
    fun v hv hb => handleTurnTaken_oob_reject st p raw v hv hb, ?_, ?_⟩
  · intro v hv hb hno
    cases hc : jsCellTaken st.board (v - 1) with
    | true => exact handleTurnTaken_occupied_reject st p raw v hv hb hc
    | false =>
      push_neg at hb
      exact absurd ((jsCellTaken_eq_false_iff st.board (v - 1) hb.1 hb.2).1 hc) hno
  · intro v k hv hk hb hcell hfc
    have hlt : k < st.board.length := by
      push_neg at hb
      have := hb.2
      rw [← hk] at this
      exact_mod_cast this
    rw [handleTurnTaken_accept st p raw v k hv hk hlt hcell]
    cases hov : checkForGameOver (st.board.set k (markOf p)) <;>
      simp [emitToAll, hov, hfc]

/-- C7 (witness): the four branches at concrete inputs — `"abc"` is
unparseable, `"0"` decrements out of bounds, `"1"` on a taken cell is
occupied, and `"5"` on a fresh board writes the mark into cell 4. -/
theorem C7_amended_witness :
    handleTurnTaken ⟨true, true, initialBoard, 1, 1⟩ Player.first "abc" =
      (⟨true, true, initialBoard, 1, 1⟩,
        [Event.turn (Target.player Player.first) (some parseRetryMsg), Event.ack Player.first])
    ∧ handleTurnTaken ⟨true, true, initialBoard, 1, 1⟩ Player.first "0" =
      (⟨true, true, initialBoard, 1, 1⟩,
        [Event.turn (Target.player Player.first) (some oobRetryMsg), Event.ack Player.first])
    ∧ handleTurnTaken ⟨true, true, initialBoard.set 0 Symbol.x, 1, 1⟩ Player.second "1" =
      (⟨true, true, initialBoard.set 0 Symbol.x, 1, 1⟩,
        [Event.turn (Target.player Player.second) (some occupiedRetryMsg), Event.ack Player.second])
    ∧ Event.boardUpdate (Target.player Player.first) (initialBoard.set 4 (markOf Player.first)) ∈
      (handleTurnTaken ⟨true, true, initialBoard, 1, 1⟩ Player.first "5").2 := by
  refine ⟨(C7_amended_coercion_checks _ Player.first "abc").1 (by decide),
    (C7_amended_coercion_checks _ Player.first "0").2.1 0 (by decide) (by decide),
    (C7_amended_coercion_checks _ Player.second "1").2.2.1 1 (by decide) (by decide) ?_,
    (C7_amended_coercion_checks _ Player.first "5").2.2.2 5 4 (by decide) (by decide)
      (by decide) (by decide) rfl⟩
  rintro ⟨k, hk, hc⟩
  have hk0 : k = 0 := by
    have : (k : ℚ) = 0 := by
      rw [hk]
      norm_num
    exact_mod_cast this
  subst hk0
  revert hc
  decide



/-- Emitting to all while both sockets are connected reaches both
players, first player first. -/
lemma emitToAll_both (st : ServerState) (f : Player → Event)
    (hfc : st.firstConnected = true) (hsc : st.secondConnected = true) :
    emitToAll st f = [f Player.first, f Player.second] := by
  unfold emitToAll
  rw [hfc, hsc]
  rfl

/-- The `disconnect` listener during a game: `game_over` to both,
declaring the other slot, then reset. -/
lemma handleDisconnect_eq (st : ServerState) (p : Player)
    (hfc : st.firstConnected = true) (hsc : st.secondConnected = true) :
    handleDisconnect st p =
      (initState,
        [Event.gameOver (Target.player Player.first) (disconnectionMsg (otherPlayer p)),
         Event.gameOver (Target.player Player.second) (disconnectionMsg (otherPlayer p))]) := by
  cases p <;> simp [handleDisconnect, emitToAll, hfc, hsc, otherPlayer, markOf]

/-- The `resign` listener during a game, likewise. -/
lemma handleResign_eq (st : ServerState) (p : Player)
    (hfc : st.firstConnected = true) (hsc : st.secondConnected = true) :
    handleResign st p =
      (initState,
        [Event.gameOver (Target.player Player.first) (resignationMsg (otherPlayer p)),
         Event.gameOver (Target.player Player.second) (resignationMsg (otherPlayer p))]) := by
  cases p <;> simp [handleResign, emitToAll, hfc, hsc, otherPlayer, markOf]

/-- The `turn_error` listener during a game: announced exactly like a
disconnection. -/
lemma handleTurnError_eq (st : ServerState) (p : Player)
    (hfc : st.firstConnected = true) (hsc : st.secondConnected = true) :
    handleTurnError st p =
      (initState,
        [Event.gameOver (Target.player Player.first) (disconnectionMsg (otherPlayer p)),
         Event.gameOver (Target.player Player.second) (disconnectionMsg (otherPlayer p))]) := by
  cases p <;> simp [handleTurnError, emitToAll, hfc, hsc, otherPlayer, markOf]

/-- C4: if some row, column or diagonal is fully occupied by one
player's mark, `checkForGameOver` declares a winner, and the winner is
the owner of the first fully-occupied line in the checking order (rows,
then columns, then the two diagonals) — a line of `x` sums to 3 and
names the first slot, a line of `o` sums to -3 and names the second. -/
theorem C4_full_line_declares_winner (b : Board) (hlen : b.length = 9)
    (l : ℕ × ℕ × ℕ) (hl : l ∈ linesInOrder) (q : Player) (hfull : lineFullOf b l q) :
    ∃ w : Player, firstFullLineWinner b = some w
      ∧ checkForGameOver b = some (Outcome.won w) := by
  cases hw : firstFullLineWinner b with
  | none =>
    unfold firstFullLineWinner at hw
    rw [List.findSome?_eq_none_iff] at hw
    exact absurd ((lineWinner_eq_some b l q).2 hfull) (by simp [hw l hl])
  | some w =>
    exact ⟨w, rfl, by rw [checkForGameOver_eq, hw]⟩

/-- C4 (witness): the board `x x x / o o . / . . .` has its first row
fully `x`, and detection declares the first player the winner. -/
theorem C4_witness :
    ∃ w : Player,
      firstFullLineWinner
          [Symbol.x, Symbol.x, Symbol.x, Symbol.o, Symbol.o, Symbol.dot,
           Symbol.dot, Symbol.dot, Symbol.dot] = some w
      ∧ checkForGameOver
          [Symbol.x, Symbol.x, Symbol.x, Symbol.o, Symbol.o, Symbol.dot,
           Symbol.dot, Symbol.dot, Symbol.dot] = some (Outcome.won w) :=
  C4_full_line_declares_winner _ rfl (0, 1, 2) (by decide) Player.first ⟨rfl, rfl, rfl⟩

/-- C5: an accepted move after which no line is fully one player's mark
and no cell is empty ends the session with a tie: the final board is
broadcast to both players, `game_over` "is tied" is sent to both, the
registry resets, and the final board has zero empty cells. -/
theorem C5_tie_on_full_board (st : ServerState) (p : Player) (raw : String) (v : ℚ) (k : ℕ)
    (hfc : st.firstConnected = true) (hsc : st.secondConnected = true)
    (hv : jsNumber raw = some v) (hk : (k : ℚ) = v - 1) (hlt : k < st.board.length)
    (hcell : cell st.board k = Symbol.dot)
    (hfull : Symbol.dot ∉ st.board.set k (markOf p))
    (hnoline : ∀ l ∈ linesInOrder, ∀ q : Player, ¬lineFullOf (st.board.set k (markOf p)) l q) :
    handleTurnTaken st p raw =
      (initState,
        [Event.boardUpdate (Target.player Player.first) (st.board.set k (markOf p)),
         Event.boardUpdate (Target.player Player.second) (st.board.set k (markOf p)),
         Event.gameOver (Target.player Player.first) tieMsg,
         Event.gameOver (Target.player Player.second) tieMsg,
         Event.ack p])
    ∧ (st.board.set k (markOf p)).count Symbol.dot = 0 := by
  have htie : checkForGameOver (st.board.set k (markOf p)) = some Outcome.tie := by
    rw [checkForGameOver_eq]
    have h1 : firstFullLineWinner (st.board.set k (markOf p)) = none := by
      unfold firstFullLineWinner
      rw [List.findSome?_eq_none_iff]
      intro l hl
      cases hw : lineWinner (st.board.set k (markOf p)) l with
      | none => rfl
      | some q => exact absurd ((lineWinner_eq_some _ l q).1 hw) (hnoline l hl q)
    have h2 : (st.board.set k (markOf p)).any (fun s => s = Symbol.dot) = false := by
      simp only [List.any_eq_true, decide_eq_true_eq, Bool.eq_false_iff, ne_eq]
      rintro ⟨s, hs, rfl⟩
      exact hfull hs
    rw [h1, h2]
    rfl
  rw [handleTurnTaken_accept st p raw v k hv hk hlt hcell]
  refine ⟨?_, List.count_eq_zero.2 hfull⟩
  simp [emitToAll, hfc, hsc, htie, outcomeMsg]

/-- C5 (witness): first plays 9 into `x o x / x o o / o x .`, filling
the board with no three-in-a-row: the session ends in a tie. -/
theorem C5_witness :
    handleTurnTaken
        ⟨true, true,
          [Symbol.x, Symbol.o, Symbol.x, Symbol.x, Symbol.o, Symbol.o,
           Symbol.o, Symbol.x, Symbol.dot], 1, 1⟩ Player.first "9" =
      (initState,
        [Event.boardUpdate (Target.player Player.first)
            ([Symbol.x, Symbol.o, Symbol.x, Symbol.x, Symbol.o, Symbol.o,
              Symbol.o, Symbol.x, Symbol.dot].set 8 (markOf Player.first)),
         Event.boardUpdate (Target.player Player.second)
            ([Symbol.x, Symbol.o, Symbol.x, Symbol.x, Symbol.o, Symbol.o,
              Symbol.o, Symbol.x, Symbol.dot].set 8 (markOf Player.first)),
         Event.gameOver (Target.player Player.first) tieMsg,
         Event.gameOver (Target.player Player.second) tieMsg,
         Event.ack Player.first])
    ∧ ([Symbol.x, Symbol.o, Symbol.x, Symbol.x, Symbol.o, Symbol.o,
        Symbol.o, Symbol.x, Symbol.dot].set 8 (markOf Player.first)).count Symbol.dot = 0 :=
  C5_tie_on_full_board _ Player.first "9" 9 8 rfl rfl (by decide) (by decide) (by decide)
    (by decide) (by decide) (by decide)

/-- C6: every rejected move — unparseable, out of bounds, or occupied —
leaves the whole server state (board included) unchanged and emits only
a retry `turn` prompt back to the submitting player's socket (plus the
acknowledgement): no `game_over`, no broadcast, no effect on the other
player. -/
theorem C6_rejection_is_frame (st : ServerState) (p : Player) (raw : String)
    (hrej : acceptsMove st.board raw = false) :
    (handleTurnTaken st p raw).1 = st
    ∧ ∃ m, (handleTurnTaken st p raw).2 = [Event.turn (Target.player p) (some m), Event.ack p]
      ∧ (m = parseRetryMsg ∨ m = oobRetryMsg ∨ m = occupiedRetryMsg) := by
  cases hv : jsNumber raw with
  | none =>
    rw [handleTurnTaken_parse_reject st p raw hv]
    exact ⟨rfl, parseRetryMsg, rfl, Or.inl rfl⟩
  | some v =>
    by_cases hb : v - 1 < 0 ∨ (st.board.length : ℚ) ≤ v - 1
    · rw [handleTurnTaken_oob_reject st p raw v hv hb]
      exact ⟨rfl, oobRetryMsg, rfl, Or.inr (Or.inl rfl)⟩
    · have hc : jsCellTaken st.board (v - 1) = true := by
        have hA : ¬(v - 1 < 0) := fun h => hb (Or.inl h)
        have hB : ¬((st.board.length : ℚ) ≤ v - 1) := fun h => hb (Or.inr h)
        unfold acceptsMove at hrej
        rw [hv] at hrej
        simp only [Option.map_some'] at hrej
        simpa [hA, hB] using hrej
      rw [handleTurnTaken_occupied_reject st p raw v hv hb hc]
      exact ⟨rfl, occupiedRetryMsg, rfl, Or.inr (Or.inr rfl)⟩

/-- C6 (witness): `"abc"` is rejected and changes nothing. -/
theorem C6_witness :
    (handleTurnTaken ⟨true, true, initialBoard, 1, 1⟩ Player.first "abc").1 =
      ⟨true, true, initialBoard, 1, 1⟩
    ∧ ∃ m, (handleTurnTaken ⟨true, true, initialBoard, 1, 1⟩ Player.first "abc").2 =
        [Event.turn (Target.player Player.first) (some m), Event.ack Player.first]
      ∧ (m = parseRetryMsg ∨ m = oobRetryMsg ∨ m = occupiedRetryMsg) :=
  C6_rejection_is_frame ⟨true, true, initialBoard, 1, 1⟩ Player.first "abc" (by decide)

/-- C8: a disconnection, resignation or input-channel failure
(`turn_error`) from slot `p` during a game ends the session at once —
whoever holds the turn token — with a single `game_over` to each player
declaring the other slot the winner, and the registry reset to Empty
(both sockets released, fresh board, no listeners). -/
theorem C8_terminal_ends_session (st : ServerState) (p : Player) (op : Op)
    (hfc : st.firstConnected = true) (hsc : st.secondConnected = true)
    (hop : op = Op.disconnect p ∨ op = Op.resign p ∨ op = Op.turnError p) :
    (step st op).1 = initState
    ∧ ∃ m, (step st op).2 =
        [Event.gameOver (Target.player Player.first) m,
         Event.gameOver (Target.player Player.second) m]
      ∧ announcedWinner m = some (otherPlayer p) := by
  rcases hop with h | h | h <;> subst h
  · refine ⟨rfl, disconnectionMsg (otherPlayer p), ?_, by cases p <;> decide⟩
    show (handleDisconnect st p).2 = _
    rw [handleDisconnect_eq st p hfc hsc]
  · refine ⟨rfl, resignationMsg (otherPlayer p), ?_, by cases p <;> decide⟩
    show (handleResign st p).2 = _
    rw [handleResign_eq st p hfc hsc]
  · refine ⟨rfl, disconnectionMsg (otherPlayer p), ?_, by cases p <;> decide⟩
    show (handleTurnError st p).2 = _
    rw [handleTurnError_eq st p hfc hsc]

/-- C8 (witness): the first player resigns mid-game; the second player
is declared the winner and the registry resets. -/
theorem C8_witness :
    (step ⟨true, true, initialBoard.set 0 Symbol.x, 1, 1⟩ (Op.resign Player.first)).1 = initState
    ∧ ∃ m, (step ⟨true, true, initialBoard.set 0 Symbol.x, 1, 1⟩ (Op.resign Player.first)).2 =
        [Event.gameOver (Target.player Player.first) m,
         Event.gameOver (Target.player Player.second) m]
      ∧ announcedWinner m = some (otherPlayer Player.first) :=
  C8_terminal_ends_session ⟨true, true, initialBoard.set 0 Symbol.x, 1, 1⟩ Player.first
    (Op.resign Player.first) rfl rfl (Or.inr (Or.inl rfl))

/-- C9: across every server reaction the board keeps exactly 9 cells,
and either the reaction is (or ends in) the session reset — all 9 cells
reinitialized to empty — or every cell is unchanged except that an
empty cell may become marked; a marked cell never changes or reverts. -/
theorem C9_board_cells_monotone (st : ServerState) (op : Op) (hlen : st.board.length = 9) :
    (step st op).1.board.length = 9
    ∧ ((step st op).1.board = initialBoard
      ∨ ∀ i, i < 9 →
        cell (step st op).1.board i = cell st.board i
        ∨ (cell st.board i = Symbol.dot ∧ cell (step st op).1.board i ≠ Symbol.dot)) := by
  cases op with
  | connect =>
    rw [show (step st Op.connect).1.board = st.board from handleConnection_board st]
    exact ⟨hlen, Or.inr fun i _ => Or.inl rfl⟩
  | disconnect p => exact ⟨rfl, Or.inl rfl⟩
  | resign p => exact ⟨rfl, Or.inl rfl⟩
  | turnError p => exact ⟨rfl, Or.inl rfl⟩
  | turnTaken p raw =>
    have hstep : step st (Op.turnTaken p raw) = handleTurnTaken st p raw := rfl
    rw [hstep]
    cases hv : jsNumber raw with
    | none =>
      rw [handleTurnTaken_parse_reject st p raw hv]
      exact ⟨hlen, Or.inr fun i _ => Or.inl rfl⟩
    | some v =>
      by_cases hb : v - 1 < 0 ∨ (st.board.length : ℚ) ≤ v - 1
      · rw [handleTurnTaken_oob_reject st p raw v hv hb]
        exact ⟨hlen, Or.inr fun i _ => Or.inl rfl⟩
      · cases hc : jsCellTaken st.board (v - 1) with
        | true =>
          rw [handleTurnTaken_occupied_reject st p raw v hv hb hc]
          exact ⟨hlen, Or.inr fun i _ => Or.inl rfl⟩
        | false =>
          push_neg at hb
          obtain ⟨k, hk, hcell⟩ :=
            (jsCellTaken_eq_false_iff st.board (v - 1) hb.1 hb.2).1 hc
          have hlt : k < st.board.length := by
            have h2 := hb.2
            rw [← hk] at h2
            exact_mod_cast h2
          rw [handleTurnTaken_accept st p raw v k hv hk hlt hcell]
          cases hov : checkForGameOver (st.board.set k (markOf p)) with
          | some outcome =>
            simp only [hov]
            exact ⟨rfl, Or.inl rfl⟩
          | none =>
            simp only [hov]
            refine ⟨by simpa [List.length_set] using hlen, Or.inr fun i hi => ?_⟩
            by_cases hik : i = k
            · subst hik
              refine Or.inr ⟨hcell, ?_⟩
              rw [cell_set_self st.board i (markOf p) hlt]
              cases p <;> decide
            · exact Or.inl (cell_set_ne st.board k i (markOf p) hik)

/-- C9 (witness): the first player marks cell 0 of a fresh board. -/
theorem C9_witness :
    (step ⟨true, true, initialBoard, 1, 1⟩ (Op.turnTaken Player.first "1")).1.board.length = 9
    ∧ ((step ⟨true, true, initialBoard, 1, 1⟩ (Op.turnTaken Player.first "1")).1.board =
        initialBoard
      ∨ ∀ i, i < 9 →
        cell (step ⟨true, true, initialBoard, 1, 1⟩ (Op.turnTaken Player.first "1")).1.board i =
          cell initialBoard i
        ∨ (cell initialBoard i = Symbol.dot
          ∧ cell (step ⟨true, true, initialBoard, 1, 1⟩
              (Op.turnTaken Player.first "1")).1.board i ≠ Symbol.dot)) :=
  C9_board_cells_monotone ⟨true, true, initialBoard, 1, 1⟩ (Op.turnTaken Player.first "1") rfl

/-- C10: an accepted move that ends the game (a win or a tie) emits, in
this order: the final board broadcast to both players, then `game_over`
to both players, then the acknowledgement — so the `board_update`
carrying the final board strictly precedes every `game_over`. -/
theorem C10_board_broadcast_precedes_game_over (st : ServerState) (p : Player) (raw : String)
    (v : ℚ) (k : ℕ) (out : Outcome)
    (hfc : st.firstConnected = true) (hsc : st.secondConnected = true)
    (hv : jsNumber raw = some v) (hk : (k : ℚ) = v - 1) (hlt : k < st.board.length)
    (hcell : cell st.board k = Symbol.dot)
    (hover : checkForGameOver (st.board.set k (markOf p)) = some out) :
    handleTurnTaken st p raw =
      (initState,
        [Event.boardUpdate (Target.player Player.first) (st.board.set k (markOf p)),
         Event.boardUpdate (Target.player Player.second) (st.board.set k (markOf p)),
         Event.gameOver (Target.player Player.first) (outcomeMsg out),
         Event.gameOver (Target.player Player.second) (outcomeMsg out),
         Event.ack p]) := by
  rw [handleTurnTaken_accept st p raw v k hv hk hlt hcell]
  simp [emitToAll, hfc, hsc, hover]

/-- C10 (witness): first completes the top row by playing 3. -/
theorem C10_witness :
    handleTurnTaken
        ⟨true, true,
          [Symbol.x, Symbol.x, Symbol.dot, Symbol.o, Symbol.o, Symbol.dot,
           Symbol.dot, Symbol.dot, Symbol.dot], 1, 1⟩ Player.first "3" =
      (initState,
        [Event.boardUpdate (Target.player Player.first)
            ([Symbol.x, Symbol.x, Symbol.dot, Symbol.o, Symbol.o, Symbol.dot,
              Symbol.dot, Symbol.dot, Symbol.dot].set 2 (markOf Player.first)),
         Event.boardUpdate (Target.player Player.second)
            ([Symbol.x, Symbol.x, Symbol.dot, Symbol.o, Symbol.o, Symbol.dot,
              Symbol.dot, Symbol.dot, Symbol.dot].set 2 (markOf Player.first)),
         Event.gameOver (Target.player Player.first) (outcomeMsg (Outcome.won Player.first)),
         Event.gameOver (Target.player Player.second) (outcomeMsg (Outcome.won Player.first)),
         Event.ack Player.first]) :=
  C10_board_broadcast_precedes_game_over _ Player.first "3" 3 2 (Outcome.won Player.first)
    rfl rfl (by decide) (by decide) (by decide) (by decide) (by decide)


end TTT
